import Mathlib

/-!
# taskApi — verification of the CRUD core

Shallow embedding of the request handlers (`internal/hand`), the router
registration (`main`) and the table initializer
(`internal/database/migrations.go`) of the taskApi repository, together with
theorems settling the spec's claims about them.

Modelling decisions:
* The `tasks` table is a `StoreState`: a list of rows plus the `SERIAL`
  sequence counter used for `RETURNING id`.
* Each SQL statement appearing in the handlers gets a Lean function giving its
  semantics against `StoreState`.
* A database call can fail for external reasons (lost connection, context
  timeout); that non-determinism is a `Bool` flag passed to the handler, one
  per call site.  With the flag `false` the call behaves as the store
  semantics dictates; with `true` it returns a non-`ErrNoRows` error.
* Go's `json.Encoder.Encode` output is modelled at the JSON-value level:
  `Json.null` for a nil slice, `Json.arr` for a non-nil slice, `Json.obj` for
  a struct.  A nil `[]models.Task` slice and an empty non-nil slice encode
  differently (`null` vs `[]`), exactly as in `encoding/json`.
* `http.Error(w, msg, code)` is a `Response` with a text body; a handler that
  only `Encode`s gets the implicit status 200.
-/

namespace TaskApi

/-- Modelled from the spec: the `models` package is not under `src/`, so the
`models.Task` struct is reconstructed from its uses in the handlers and the
spec's §3/§6 field list `{id, title, description, due_date, created_at,
updated_at}`.  `created_at`/`updated_at` hold RFC3339 strings (the handlers
assign `time.Now().Format(time.RFC3339)`); `due_date` is carried verbatim. -/
structure Task where
  id : Int
  title : String
  description : String
  dueDate : String
  createdAt : String
  updatedAt : String
deriving DecidableEq, Repr

/-- The `tasks` table (`migrations.go` schema): rows plus the `SERIAL`
sequence value the next `INSERT ... RETURNING id` will hand out. -/
structure StoreState where
  rows : List Task
  nextId : Int
deriving DecidableEq, Repr

/-- A primitive JSON value appearing in a task object field. -/
inductive JsonVal where
  | null
  | str (s : String)
  | num (n : Int)
deriving DecidableEq, Repr

/-- A JSON document as written by the handlers: `null` (nil slice), a single
object, or an array of objects. -/
inductive Json where
  | null
  | obj (fields : List (String × JsonVal))
  | arr (elems : List (List (String × JsonVal)))
deriving DecidableEq, Repr

/-- JSON encoding of a task, fields in struct order as `encoding/json`
emits them. -/
def encodeTask (t : Task) : List (String × JsonVal) :=
  [("id", JsonVal.num t.id),
   ("title", JsonVal.str t.title),
   ("description", JsonVal.str t.description),
   ("due_date", JsonVal.str t.dueDate),
   ("created_at", JsonVal.str t.createdAt),
   ("updated_at", JsonVal.str t.updatedAt)]

/-- The body a handler writes: nothing (`204`), the plain-text message of
`http.Error`, or a JSON document. -/
inductive Body where
  | empty
  | text (msg : String)
  | json (j : Json)
deriving DecidableEq, Repr

/-- An HTTP response: status code plus body. -/
structure Response where
  status : Nat
  body : Body
deriving DecidableEq, Repr

/-- `strconv.Atoi`: optional sign followed by at least one decimal digit. -/
def digitVal (c : Char) : Option Nat :=
  if c.isDigit then some (c.toNat - 48) else none

/-- Fold a non-empty all-digit character list into a number; `none` on an
empty list or any non-digit. -/
def parseDigits (cs : List Char) : Option Nat :=
  if cs.isEmpty then none
  else cs.foldl (fun acc c => acc.bind (fun n => (digitVal c).map (fun d => n * 10 + d))) (some 0)

/-- `strconv.Atoi` as used by the handlers (overflow is irrelevant here: the
route constraint only lets digit strings through). -/
def atoi (s : String) : Option Int :=
  match s.data with
  | '+' :: rest => (parseDigits rest).map (fun n => (n : Int))
  | '-' :: rest => (parseDigits rest).map (fun n => -(n : Int))
  | cs => (parseDigits cs).map (fun n => (n : Int))

/-! ## Store semantics of the SQL statements used by the handlers -/

/-- `INSERT INTO tasks (title, description, due_date, created_at, updated_at)
VALUES ($1,$2,$3,$4,$5) RETURNING id`: appends a row with the next `SERIAL`
id and returns that id. -/
def insertTask (s : StoreState) (title description dueDate createdAt updatedAt : String) :
    StoreState × Int :=
  ({ rows := s.rows ++ [{ id := s.nextId, title := title, description := description,
                          dueDate := dueDate, createdAt := createdAt, updatedAt := updatedAt }],
     nextId := s.nextId + 1 }, s.nextId)

/-- `SELECT ... FROM tasks WHERE id=$1`: the row with that id, if any. -/
def selectTaskById (s : StoreState) (taskID : Int) : Option Task :=
  s.rows.find? (fun r => r.id == taskID)

/-- `UPDATE tasks SET title=$1, description=$2, due_date=$3, updated_at=$4
WHERE id=$5`: rewrites exactly those four columns of every matching row. -/
def updateTaskRow (s : StoreState) (taskID : Int) (title description dueDate updatedAt : String) :
    StoreState :=
  { s with rows := s.rows.map (fun r =>
      if r.id == taskID then
        { r with title := title, description := description,
                 dueDate := dueDate, updatedAt := updatedAt }
      else r) }

/-- `DELETE FROM tasks WHERE id=$1`: drops every matching row; no error when
nothing matches. -/
def deleteTaskRow (s : StoreState) (taskID : Int) : StoreState :=
  { s with rows := s.rows.filter (fun r => r.id != taskID) }

/-- Outcome of `sql.Row.Scan`: a row, `sql.ErrNoRows`, or another error
(connection failure, context timeout). -/
inductive ScanResult (α : Type) where
  | found (a : α)
  | noRows
  | failure
deriving DecidableEq, Repr

/-- `QueryRow("SELECT ... WHERE id=$1").Scan(...)` under a failure flag. -/
def scanTaskById (dbFail : Bool) (s : StoreState) (taskID : Int) : ScanResult Task :=
  if dbFail then .failure
  else match selectTaskById s taskID with
    | some t => .found t
    | none => .noRows

/-- `QueryRow("SELECT created_at FROM tasks WHERE id=$1").Scan(...)` under a
failure flag (used by `UpdateTask`). -/
def scanCreatedAt (dbFail : Bool) (s : StoreState) (taskID : Int) : ScanResult String :=
  if dbFail then .failure
  else match selectTaskById s taskID with
    | some t => .found t.createdAt
    | none => .noRows

/-! ## Request handlers (`internal/hand`, package `hand`) -/

/-- `taskHandler.CreateTask`.  `body` is the result of decoding the request
JSON into a `models.Task` (`none` = malformed JSON); `now` is
`time.Now().Format(time.RFC3339)`; `dbFail` injects an insert failure.
Returns the response and the resulting store state. -/
def CreateTask (dbFail : Bool) (s : StoreState) (body : Option Task) (now : String) :
    Response × StoreState :=
  match body with
  | none => ({ status := 400, body := Body.text "Invalid request payload" }, s)
  | some task0 =>
    let task1 : Task := { task0 with createdAt := now, updatedAt := now }
    if dbFail then ({ status := 500, body := Body.text "Error creating task" }, s)
    else
      let res := insertTask s task1.title task1.description task1.dueDate
        task1.createdAt task1.updatedAt
      let task2 : Task := { task1 with id := res.2 }
      ({ status := 201, body := Body.json (Json.obj (encodeTask task2)) }, res.1)

/-- The loop `tasks = append(tasks, task)` starting from the nil slice
`var tasks []models.Task`: `none` is the nil slice, `some l` a non-nil one. -/
def goAppend (acc : Option (List Task)) (t : Task) : Option (List Task) :=
  match acc with
  | none => some [t]
  | some l => some (l ++ [t])

/-- The slice built by `GetTasks`'s scan loop over the result rows. -/
def buildTaskSlice (rows : List Task) : Option (List Task) :=
  rows.foldl goAppend none

/-- `json.Encoder.Encode` on a `[]models.Task`: a nil slice encodes as JSON
`null`, a non-nil slice as an array. -/
def encodeTaskSlice : Option (List Task) → Json
  | none => Json.null
  | some l => Json.arr (l.map encodeTask)

/-- `taskHandler.GetTasks`: `SELECT ... FROM tasks`, scan every row into a
slice that starts nil, encode the slice.  `queryFail` injects a query
failure. -/
def GetTasks (queryFail : Bool) (s : StoreState) : Response :=
  if queryFail then { status := 500, body := Body.text "Server error" }
  else { status := 200, body := Body.json (encodeTaskSlice (buildTaskSlice s.rows)) }

/-- `taskHandler.GetTaskByID`: parse the `{id}` path variable with
`strconv.Atoi` (400 on failure), select the row, answer 404 on any `Scan`
error and 200 with the task otherwise. -/
def GetTaskByID (dbFail : Bool) (s : StoreState) (idStr : String) : Response :=
  match atoi idStr with
  | none => { status := 400, body := Body.text "Invalid task ID" }
  | some taskID =>
    match scanTaskById dbFail s taskID with
    | .found t => { status := 200, body := Body.json (Json.obj (encodeTask t)) }
    | _ => { status := 404, body := Body.text "Task not found" }

/-- `taskHandler.UpdateTask`: decode the body (400 on failure), parse the
path id (400 on failure), fetch the existing row's `created_at` (404 on any
error), stamp `updated_at`, run the `UPDATE` (500 on failure), and answer
with the body's fields plus the preserved `created_at` and the path id. -/
def UpdateTask (selFail execFail : Bool) (s : StoreState) (idStr : String)
    (body : Option Task) (now : String) : Response × StoreState :=
  match body with
  | none => ({ status := 400, body := Body.text "Invalid request payload" }, s)
  | some task0 =>
    match atoi idStr with
    | none => ({ status := 400, body := Body.text "Invalid task ID" }, s)
    | some taskID =>
      match scanCreatedAt selFail s taskID with
      | .found ca =>
        let task1 : Task := { task0 with updatedAt := now }
        if execFail then ({ status := 500, body := Body.text "Error updating task" }, s)
        else
          let s2 := updateTaskRow s taskID task1.title task1.description task1.dueDate
            task1.updatedAt
          let task2 : Task := { task1 with createdAt := ca, id := taskID }
          ({ status := 200, body := Body.json (Json.obj (encodeTask task2)) }, s2)
      | _ => ({ status := 404, body := Body.text "Task not found" }, s)

/-- `taskHandler.DeleteTask`: parse the path id (400 on failure), run the
`DELETE` (500 on failure), answer 204 with no body. -/
def DeleteTask (execFail : Bool) (s : StoreState) (idStr : String) : Response × StoreState :=
  match atoi idStr with
  | none => ({ status := 400, body := Body.text "Invalid task ID" }, s)
  | some taskID =>
    if execFail then ({ status := 500, body := Body.text "Error deleting task" }, s)
    else ({ status := 204, body := Body.empty }, deleteTaskRow s taskID)

/-! ## Router (`main`, gorilla/mux route registration) -/

/-- HTTP method of an incoming request (the four registered verbs). -/
inductive Method where
  | GET
  | POST
  | PUT
  | DELETE
deriving DecidableEq, Repr

/-- The mux pattern `[0-9]+` for the `{id}` variable: one or more decimal
digits, matching the whole segment. -/
def isDigitSeg (s : String) : Bool :=
  !s.isEmpty && s.data.all (fun c => c.isDigit)

/-- Where the router sends a request: a handler, gorilla/mux's 405 responder
(path template matched, method did not), or its 404 responder (no template
matched). -/
inductive RouteMatch where
  | createTask
  | getTasks
  | getTaskById (idStr : String)
  | updateTask (idStr : String)
  | deleteTask (idStr : String)
  | methodNotAllowed
  | notFound
deriving DecidableEq, Repr

/-- The route table registered in `main`:
`POST /tasks`, `GET /tasks`, `GET|PUT|DELETE /tasks/{id:[0-9]+}`.
A two-segment path whose second segment is not all digits matches no
template. -/
def routeRequest (m : Method) (path : List String) : RouteMatch :=
  match m, path with
  | .POST, ["tasks"] => .createTask
  | .GET, ["tasks"] => .getTasks
  | .PUT, ["tasks"] => .methodNotAllowed
  | .DELETE, ["tasks"] => .methodNotAllowed
  | .GET, ["tasks", seg] => if isDigitSeg seg then .getTaskById seg else .notFound
  | .PUT, ["tasks", seg] => if isDigitSeg seg then .updateTask seg else .notFound
  | .DELETE, ["tasks", seg] => if isDigitSeg seg then .deleteTask seg else .notFound
  | .POST, ["tasks", seg] => if isDigitSeg seg then .methodNotAllowed else .notFound
  | _, _ => .notFound

/-- gorilla/mux's default not-found responder (`http.NotFoundHandler`). -/
def muxNotFound : Response :=
  { status := 404, body := Body.text "404 page not found" }

/-- gorilla/mux's default method-not-allowed responder. -/
def muxMethodNotAllowed : Response :=
  { status := 405, body := Body.empty }

/-- Per-request inputs that do not live in the store: the decoded body, the
wall clock, and the failure flags of the (at most two) database calls. -/
structure RequestEnv where
  body : Option Task
  now : String
  dbFail1 : Bool
  dbFail2 : Bool
deriving DecidableEq, Repr

/-- One request through router and handlers: dispatch by method and path,
run the matched handler, return response and resulting store state. -/
def serve (env : RequestEnv) (s : StoreState) (m : Method) (path : List String) :
    Response × StoreState :=
  match routeRequest m path with
  | .createTask => CreateTask env.dbFail1 s env.body env.now
  | .getTasks => (GetTasks env.dbFail1 s, s)
  | .getTaskById idStr => (GetTaskByID env.dbFail1 s idStr, s)
  | .updateTask idStr => UpdateTask env.dbFail1 env.dbFail2 s idStr env.body env.now
  | .deleteTask idStr => DeleteTask env.dbFail1 s idStr
  | .methodNotAllowed => (muxMethodNotAllowed, s)
  | .notFound => (muxNotFound, s)

/-! ## Table initializer (`internal/database/migrations.go`) -/

/-- One column of the `CREATE TABLE` DDL in `RunMigrations`. -/
structure ColumnDef where
  name : String
  sqlType : String
  notNull : Bool
  primaryKey : Bool
deriving DecidableEq, Repr

/-- The `CREATE TABLE IF NOT EXISTS` statement, structured. -/
structure CreateTable where
  ifNotExists : Bool
  table : String
  columns : List ColumnDef
deriving DecidableEq, Repr

/-- The `taskTable` DDL string of `RunMigrations`, parsed into its
structure: `CREATE TABLE IF NOT EXISTS tasks (id SERIAL PRIMARY KEY, title
VARCHAR(255) NOT NULL, description TEXT NOT NULL, due_date TIMESTAMP,
created_at TIMESTAMP NOT NULL, updated_at TIMESTAMP NOT NULL)`. -/
def taskTable : CreateTable :=
  { ifNotExists := true
    table := "tasks"
    columns :=
      [{ name := "id", sqlType := "SERIAL", notNull := false, primaryKey := true },
       { name := "title", sqlType := "VARCHAR(255)", notNull := true, primaryKey := false },
       { name := "description", sqlType := "TEXT", notNull := true, primaryKey := false },
       { name := "due_date", sqlType := "TIMESTAMP", notNull := false, primaryKey := false },
       { name := "created_at", sqlType := "TIMESTAMP", notNull := true, primaryKey := false },
       { name := "updated_at", sqlType := "TIMESTAMP", notNull := true, primaryKey := false }] }

/-- How `RunMigrations` ends: normal return, or `log.Fatal` (process
terminates). -/
inductive MigOutcome where
  | ok
  | fatal
deriving DecidableEq, Repr

/-- One `db.Exec` call together with the deadline (in seconds) of the
context it is given. -/
structure DbExecCall where
  stmt : CreateTable
  timeoutSecs : Nat
deriving DecidableEq, Repr

/-- The database calls `RunMigrations` issues: exactly one `Exec` of the
task-table DDL under a 5-second context. -/
def runMigrationsCalls : List DbExecCall :=
  [{ stmt := taskTable, timeoutSecs := 5 }]

/-- How `RunMigrations` ends as a function of whether its `Exec` returned an
error: `log.Fatal` on any error, normal return otherwise. -/
def runMigrationsOutcome (execErr : Bool) : MigOutcome :=
  if execErr then MigOutcome.fatal else MigOutcome.ok

/-- Modelled from the spec: the §3 data-model column list
`id, title, description, due_date, created_at, updated_at` (the schema the
table initializer is required to create). -/
def specTaskColumns : List String :=
  ["id", "title", "description", "due_date", "created_at", "updated_at"]

/-! ## Concrete sample values used to instantiate the theorems -/

/-- A concrete stored row. -/
def wRow : Task :=
  { id := 1, title := "a", description := "b", dueDate := "d",
    createdAt := "c0", updatedAt := "u0" }

/-- A store holding exactly `wRow`. -/
def wStore : StoreState := { rows := [wRow], nextId := 2 }

/-- A store holding no rows. -/
def wEmpty : StoreState := { rows := [], nextId := 1 }

/-- A concrete decoded request body carrying client-supplied `id`,
`created_at` and `updated_at` values. -/
def wBody : Task :=
  { id := 9, title := "T", description := "D", dueDate := "DD",
    createdAt := "cx", updatedAt := "ux" }

/-- The same body as `wBody` with different client-supplied `id`,
`created_at` and `updated_at`. -/
def wBody2 : Task :=
  { id := 42, title := "T", description := "D", dueDate := "DD",
    createdAt := "cy", updatedAt := "uy" }

/-! ## Helper lemmas -/

/-- `find?` commutes with mapping a function that does not change the truth
of the predicate. -/
theorem find_map_pres (l : List Task) (p : Task → Bool) (f : Task → Task)
    (hf : ∀ x, p (f x) = p x) :
    (l.map f).find? p = (l.find? p).map f := by
  induction l with
  | nil => rfl
  | cons a l ih =>
    by_cases h : p a = true
    · simp [List.find?_cons, hf, h]
    · rw [List.map_cons, List.find?_cons, List.find?_cons]
      rw [hf a]
      simp only [h]
      exact ih

/-- Filtering twice with the same predicate equals filtering once. -/
theorem filter_idem_aux (l : List Task) (p : Task → Bool) :
    (l.filter p).filter p = l.filter p := by
  induction l with
  | nil => rfl
  | cons a l ih =>
    by_cases h : p a = true
    · simp [List.filter_cons, h, ih]
    · simp [List.filter_cons, h, ih]

/-! ## Claims -/

/-- Claim C1, counterexample: against the empty store a successful
`GET /tasks` responds 200 with JSON `null` — `var tasks []models.Task` stays
the nil slice when the result set is empty, and `encoding/json` writes `null`
for a nil slice — and `null` is not the literal empty array the claim
requires. -/
theorem claim_C1_counterexample :
    GetTasks false { rows := [], nextId := 1 } =
      { status := 200, body := Body.json Json.null } ∧
    Body.json Json.null ≠ Body.json (Json.arr []) :=
  ⟨rfl, by decide⟩

/-- Claim C1, amended: for every `GET /tasks` request that succeeds against a
store containing no tasks, the handler responds 200 with JSON body `null`
(the encoding of the nil slice), not the literal empty array. -/
theorem claim_C1_empty_store_null (s : StoreState) (h : s.rows = []) :
    GetTasks false s = { status := 200, body := Body.json Json.null } := by
  simp [GetTasks, buildTaskSlice, encodeTaskSlice, h]

/-- Claim C1, witness: the amended statement instantiated at the empty
store. -/
theorem claim_C1_empty_store_null_witness :
    (({ rows := [], nextId := 1 } : StoreState)).rows = [] ∧
    GetTasks false { rows := [], nextId := 1 } =
      { status := 200, body := Body.json Json.null } :=
  ⟨rfl, claim_C1_empty_store_null { rows := [], nextId := 1 } rfl⟩

/-- Claim C2, counterexample: `GET /tasks/abc` matches no registered route —
the `{id:[0-9]+}` constraint fails — so gorilla/mux's not-found responder
answers with status 404, not the 400 the claim states. -/
theorem claim_C2_counterexample :
    routeRequest Method.GET ["tasks", "abc"] = RouteMatch.notFound ∧
    (serve { body := none, now := "", dbFail1 := false, dbFail2 := false }
        { rows := [], nextId := 1 } Method.GET ["tasks", "abc"]).1.status = 404 ∧
    (404 : Nat) ≠ 400 :=
  ⟨rfl, rfl, by decide⟩

/-- Claim C2, amended: for every `GET /tasks/{segment}` whose segment is not
all digits, the id constraint at the routing layer rejects the path, the
request never reaches a handler, and the response status is 404 (the router's
not-found responder), not 400. -/
theorem claim_C2_route_constraint (seg : String) (env : RequestEnv)
    (s : StoreState) (h : isDigitSeg seg = false) :
    routeRequest Method.GET ["tasks", seg] = RouteMatch.notFound ∧
    (serve env s Method.GET ["tasks", seg]).1.status = 404 := by
  have hr : routeRequest Method.GET ["tasks", seg] = RouteMatch.notFound := by
    simp [routeRequest, h]
  exact ⟨hr, by simp [serve, hr, muxNotFound]⟩

/-- Claim C2, witness: the amended statement instantiated at segment
`abc`. -/
theorem claim_C2_route_constraint_witness :
    isDigitSeg "abc" = false ∧
    (routeRequest Method.GET ["tasks", "abc"] = RouteMatch.notFound ∧
     (serve { body := none, now := "", dbFail1 := false, dbFail2 := false }
        wEmpty Method.GET ["tasks", "abc"]).1.status = 404) :=
  ⟨rfl, claim_C2_route_constraint "abc"
    { body := none, now := "", dbFail1 := false, dbFail2 := false } wEmpty rfl⟩

/-- Claim C3, counterexample: a `GET /tasks/1` whose store lookup fails for a
reason other than a missing row (connection failure, timeout) is answered
404, not the 500 the claim requires — the handler maps every `Scan` error to
404. -/
theorem claim_C3_counterexample :
    GetTaskByID true
      { rows := [{ id := 1, title := "a", description := "b", dueDate := "",
                   createdAt := "c", updatedAt := "c" }], nextId := 2 } "1" =
      { status := 404, body := Body.text "Task not found" } ∧
    (404 : Nat) ≠ 500 :=
  ⟨rfl, by decide⟩

/-- Claim C3, amended: for every `GET /tasks/{id}` with a numeric id, the
handler responds 404 exactly when the store call errors — whether because no
row with that id exists or because the call fails for another reason — and
never responds 500. -/
theorem claim_C3_notfound_on_any_error (dbFail : Bool) (s : StoreState)
    (idStr : String) (taskID : Int) (hid : atoi idStr = some taskID) :
    ((GetTaskByID dbFail s idStr).status = 404 ↔
      (dbFail = true ∨ selectTaskById s taskID = none)) ∧
    (GetTaskByID dbFail s idStr).status ≠ 500 := by
  cases dbFail with
  | true => simp [GetTaskByID, hid, scanTaskById]
  | false =>
    cases hsel : selectTaskById s taskID with
    | none => simp [GetTaskByID, hid, scanTaskById, hsel]
    | some t => simp [GetTaskByID, hid, scanTaskById, hsel]

/-- Claim C3, witness: the amended statement instantiated at a failing store
call against a store that does contain the requested row. -/
theorem claim_C3_notfound_on_any_error_witness :
    atoi "1" = some 1 ∧
    (((GetTaskByID true wStore "1").status = 404 ↔
       (true = true ∨ selectTaskById wStore 1 = none)) ∧
     (GetTaskByID true wStore "1").status ≠ 500) :=
  ⟨rfl, claim_C3_notfound_on_any_error true wStore "1" 1 rfl⟩

/-- Claim C4: for every successful `PUT /tasks/{id}` on an existing task, the
response carries the original `created_at` and the path id, the stored row
with that id now has the body's title/description/due_date and the fresh
`updated_at`, and no row's `id` or `created_at` changes. -/
theorem claim_C4_update_preserves (s : StoreState) (idStr : String)
    (taskID : Int) (body : Task) (now : String) (r : Task)
    (hid : atoi idStr = some taskID) (hrow : selectTaskById s taskID = some r) :
    UpdateTask false false s idStr (some body) now =
      ({ status := 200,
         body := Body.json (Json.obj (encodeTask
           { id := taskID, title := body.title, description := body.description,
             dueDate := body.dueDate, createdAt := r.createdAt, updatedAt := now })) },
       updateTaskRow s taskID body.title body.description body.dueDate now) ∧
    selectTaskById (updateTaskRow s taskID body.title body.description body.dueDate now)
        taskID =
      some { id := taskID, title := body.title, description := body.description,
             dueDate := body.dueDate, createdAt := r.createdAt, updatedAt := now } ∧
    (updateTaskRow s taskID body.title body.description body.dueDate now).rows.map
        (fun x => (x.id, x.createdAt)) =
      s.rows.map (fun x => (x.id, x.createdAt)) := by
  have hr_id : r.id = taskID := by
    unfold selectTaskById at hrow
    have hb := List.find?_some hrow
    exact eq_of_beq hb
  refine ⟨?_, ?_, ?_⟩
  · simp [UpdateTask, hid, scanCreatedAt, hrow]
  · unfold selectTaskById updateTaskRow
    rw [find_map_pres]
    · unfold selectTaskById at hrow
      rw [hrow, Option.map_some']
      simp [hr_id]
    · intro x
      by_cases hx : x.id = taskID <;> simp [hx]
  · unfold updateTaskRow
    simp only [List.map_map]
    apply List.map_congr_left
    intro x _
    by_cases hx : x.id = taskID <;> simp [hx]

/-- Claim C4, witness: the statement instantiated at a store holding one row
with id 1. -/
theorem claim_C4_update_preserves_witness :
    atoi "1" = some 1 ∧
    selectTaskById wStore 1 = some wRow ∧
    (UpdateTask false false wStore "1" (some wBody) "now" =
      ({ status := 200,
         body := Body.json (Json.obj (encodeTask
           { id := 1, title := wBody.title, description := wBody.description,
             dueDate := wBody.dueDate, createdAt := wRow.createdAt, updatedAt := "now" })) },
       updateTaskRow wStore 1 wBody.title wBody.description wBody.dueDate "now") ∧
     selectTaskById (updateTaskRow wStore 1 wBody.title wBody.description wBody.dueDate "now")
        1 =
       some { id := 1, title := wBody.title, description := wBody.description,
              dueDate := wBody.dueDate, createdAt := wRow.createdAt, updatedAt := "now" } ∧
     (updateTaskRow wStore 1 wBody.title wBody.description wBody.dueDate "now").rows.map
        (fun x => (x.id, x.createdAt)) =
       wStore.rows.map (fun x => (x.id, x.createdAt))) :=
  ⟨rfl, rfl, claim_C4_update_preserves wStore "1" 1 wBody "now" wRow rfl rfl⟩

/-- Claim C5: for every `POST /tasks` whose body decodes and whose insert
succeeds, the handler responds 201 with the created task, that task carries
the store's next `SERIAL` id (the `RETURNING` value) and satisfies
`created_at = updated_at`, and the task is appended to the store. -/
theorem claim_C5_create_201 (s : StoreState) (body : Task) (now : String) :
    ∃ t : Task,
      CreateTask false s (some body) now =
        ({ status := 201, body := Body.json (Json.obj (encodeTask t)) },
         { rows := s.rows ++ [t], nextId := s.nextId + 1 }) ∧
      t.id = s.nextId ∧ t.createdAt = t.updatedAt := by
  exact ⟨{ id := s.nextId, title := body.title, description := body.description,
           dueDate := body.dueDate, createdAt := now, updatedAt := now },
         rfl, rfl, rfl⟩

/-- Claim C6: for every `PUT /tasks/{id}` with a well-formed body and a
numeric id for which no row exists, the handler responds 404 and the store
state is returned unchanged — the `UPDATE` statement is never issued. -/
theorem claim_C6_update_missing_404 (s : StoreState) (idStr : String)
    (taskID : Int) (body : Task) (now : String)
    (hid : atoi idStr = some taskID) (hnone : selectTaskById s taskID = none) :
    UpdateTask false false s idStr (some body) now =
      ({ status := 404, body := Body.text "Task not found" }, s) := by
  simp [UpdateTask, hid, scanCreatedAt, hnone]

/-- Claim C6, witness: the statement instantiated at the empty store and
id 7. -/
theorem claim_C6_update_missing_404_witness :
    atoi "7" = some 7 ∧
    selectTaskById wEmpty 7 = none ∧
    UpdateTask false false wEmpty "7" (some wBody) "now" =
      ({ status := 404, body := Body.text "Task not found" }, wEmpty) :=
  ⟨rfl, rfl, claim_C6_update_missing_404 wEmpty "7" 7 wBody "now" rfl rfl⟩

/-- Claim C7: for every numeric id, a successful `DELETE /tasks/{id}`
responds 204 with no body whether or not a row with that id exists, and
deleting the same id twice leaves the store exactly as deleting it once. -/
theorem claim_C7_delete_idempotent (s : StoreState) (idStr : String)
    (taskID : Int) (hid : atoi idStr = some taskID) :
    (DeleteTask false s idStr).1 = { status := 204, body := Body.empty } ∧
    (DeleteTask false (DeleteTask false s idStr).2 idStr).2 =
      (DeleteTask false s idStr).2 := by
  constructor
  · simp [DeleteTask, hid]
  · simp [DeleteTask, hid, deleteTaskRow, filter_idem_aux]

/-- Claim C7, witness: the statement instantiated at a store whose only row
has the deleted id. -/
theorem claim_C7_delete_idempotent_witness :
    atoi "1" = some 1 ∧
    ((DeleteTask false wStore "1").1 = { status := 204, body := Body.empty } ∧
     (DeleteTask false (DeleteTask false wStore "1").2 "1").2 =
       (DeleteTask false wStore "1").2) :=
  ⟨rfl, claim_C7_delete_idempotent wStore "1" 1 rfl⟩

/-- Claim C8: `RunMigrations` issues exactly one `Exec`, of the structured
`CREATE TABLE IF NOT EXISTS tasks` statement whose column names are exactly
the §3 schema, under a 5-second context; it ends in `log.Fatal` exactly when
that `Exec` errors, and returns normally otherwise. -/
theorem claim_C8_migrations :
    runMigrationsCalls.length = 1 ∧
    runMigrationsCalls = [{ stmt := taskTable, timeoutSecs := 5 }] ∧
    taskTable.ifNotExists = true ∧
    taskTable.table = "tasks" ∧
    taskTable.columns.map ColumnDef.name = specTaskColumns ∧
    runMigrationsOutcome true = MigOutcome.fatal ∧
    runMigrationsOutcome false = MigOutcome.ok :=
  ⟨rfl, rfl, rfl, rfl, by decide, rfl, rfl⟩

/-- Claim C9: `CreateTask` ignores any client-supplied `id`, `created_at` or
`updated_at` in the request body — two decoded bodies agreeing on title,
description and due_date produce identical responses and store states — and
on success the stored row and response task carry the server clock in both
timestamps and the store's `RETURNING` id. -/
theorem claim_C9_create_ignores_client_fields (dbFail : Bool) (s : StoreState)
    (t1 t2 : Task) (now : String)
    (ht : t1.title = t2.title) (hd : t1.description = t2.description)
    (hdd : t1.dueDate = t2.dueDate) :
    CreateTask dbFail s (some t1) now = CreateTask dbFail s (some t2) now ∧
    (CreateTask false s (some t1) now).2.rows =
      s.rows ++ [{ id := s.nextId, title := t1.title, description := t1.description,
                   dueDate := t1.dueDate, createdAt := now, updatedAt := now }] ∧
    (CreateTask false s (some t1) now).1.body =
      Body.json (Json.obj (encodeTask
        { id := s.nextId, title := t1.title, description := t1.description,
          dueDate := t1.dueDate, createdAt := now, updatedAt := now })) := by
  refine ⟨?_, rfl, rfl⟩
  cases dbFail with
  | true => rfl
  | false => simp [CreateTask, insertTask, ht, hd, hdd]

/-- Claim C9, witness: the statement instantiated at two bodies differing
only in their client-supplied `id`, `created_at` and `updated_at`. -/
theorem claim_C9_create_ignores_client_fields_witness :
    wBody.title = wBody2.title ∧
    wBody.description = wBody2.description ∧
    wBody.dueDate = wBody2.dueDate ∧
    (CreateTask false wEmpty (some wBody) "now" =
       CreateTask false wEmpty (some wBody2) "now" ∧
     (CreateTask false wEmpty (some wBody) "now").2.rows =
       wEmpty.rows ++ [{ id := wEmpty.nextId, title := wBody.title,
                         description := wBody.description, dueDate := wBody.dueDate,
                         createdAt := "now", updatedAt := "now" }] ∧
     (CreateTask false wEmpty (some wBody) "now").1.body =
       Body.json (Json.obj (encodeTask
         { id := wEmpty.nextId, title := wBody.title, description := wBody.description,
           dueDate := wBody.dueDate, createdAt := "now", updatedAt := "now" }))) :=
  ⟨rfl, rfl, rfl,
   claim_C9_create_ignores_client_fields false wEmpty wBody wBody2 "now" rfl rfl rfl⟩

/-- Claim C10: `UpdateTask` ignores the `id` field of the request body — two
decoded bodies equal in every field except `id` produce identical responses
and store states, so the row updated and the id returned are determined
solely by the path parameter. -/
theorem claim_C10_update_ignores_body_id (selFail execFail : Bool)
    (s : StoreState) (idStr : String) (t1 t2 : Task) (now : String)
    (ht : t1.title = t2.title) (hd : t1.description = t2.description)
    (hdd : t1.dueDate = t2.dueDate) (_hca : t1.createdAt = t2.createdAt)
    (_hua : t1.updatedAt = t2.updatedAt) :
    UpdateTask selFail execFail s idStr (some t1) now =
      UpdateTask selFail execFail s idStr (some t2) now := by
  cases hid : atoi idStr with
  | none => simp [UpdateTask, hid]
  | some taskID =>
    cases hscan : scanCreatedAt selFail s taskID with
    | found ca =>
      cases execFail with
      | true => simp [UpdateTask, hid, hscan]
      | false => simp [UpdateTask, hid, hscan, updateTaskRow, ht, hd, hdd]
    | noRows => simp [UpdateTask, hid, hscan]
    | failure => simp [UpdateTask, hid, hscan]

/-- Claim C10, witness: the statement instantiated at two bodies that differ
only in `id` (ids 9 and 1), against a store holding the row with the path
id. -/
theorem claim_C10_update_ignores_body_id_witness :
    wBody.title = ({ wBody with id := 1 } : Task).title ∧
    wBody.description = ({ wBody with id := 1 } : Task).description ∧
    wBody.dueDate = ({ wBody with id := 1 } : Task).dueDate ∧
    wBody.createdAt = ({ wBody with id := 1 } : Task).createdAt ∧
    wBody.updatedAt = ({ wBody with id := 1 } : Task).updatedAt ∧
    UpdateTask false false wStore "1" (some wBody) "now" =
      UpdateTask false false wStore "1" (some { wBody with id := 1 }) "now" :=
  ⟨rfl, rfl, rfl, rfl, rfl,
   claim_C10_update_ignores_body_id false false wStore "1" wBody
     { wBody with id := 1 } "now" rfl rfl rfl rfl rfl⟩

end TaskApi
